import Mathlib

/-!
Verification of the error-record store, fallback classifier and analysis
gateway of the backend-code-debugger application.

The TypeScript sources are embedded shallowly:

* `src/lib/analyzer.ts` — `fallbackAnalyzer`, `analyzeError`, and the
  file-backed record store (`getAllErrors`, `saveError`, `updateError`,
  `deleteError`, `getRecentErrors`).
* `src/app/api/errors/route.ts` — the `GET` and `POST` route handlers.

Modelling conventions: the JavaScript clock (`Date.now()`) is passed as an
explicit `Nat` argument at every read site; the on-disk JSON file is a
`FileState`; the outbound HTTP call of `analyzeError` is an
`Except ApiFailure ExternalResponse` argument describing the outcome of the
external request; JS numbers that can be `NaN` are `Option Int`.
-/

namespace Debugger

/-- Severity enumeration of `AnalysisResult.severity` in `analyzer.ts`. -/
inductive Severity where
  | critical
  | high
  | medium
  | low
deriving Repr, DecidableEq

/-- The optional `analysisMetadata` object of `AnalysisResult`. -/
structure AnalysisMetadata where
  model : String
  timestamp : Nat
  processingTimeMs : Nat
deriving Repr, DecidableEq

/-- `AnalysisResult` from `src/lib/analyzer.ts` (also the shape of
`ErrorRecord.analysis` in `src/lib/db.ts`). -/
structure AnalysisResult where
  severity : Severity
  category : String
  rootCause : String
  recommendations : List String
  relatedErrors : List String
  confidenceScore : Option ℚ
  analysisMetadata : Option AnalysisMetadata
deriving Repr, DecidableEq

/-- `ErrorRecord` from `src/lib/db.ts`. -/
structure ErrorRecord where
  id : String
  timestamp : Nat
  errorMessage : String
  errorType : String
  stackTrace : String
  context : String
  analysis : Option AnalysisResult
deriving Repr, DecidableEq

/-! ### String primitives

JavaScript `String.prototype.includes` and `toLowerCase`, modelled on
`List Char`. -/

/-- `startsWithList needle hay` : does `hay` start with `needle`? -/
def startsWithList : List Char → List Char → Bool
  | [], _ => true
  | _ :: _, [] => false
  | c :: cs, d :: ds => c == d && startsWithList cs ds

/-- `subOccurs needle hay` : does `needle` occur as a contiguous run in
`hay`?  Model of `hay.includes(needle)`. -/
def subOccurs (needle : List Char) : List Char → Bool
  | [] => startsWithList needle []
  | c :: t => startsWithList needle (c :: t) || subOccurs needle t

/-- `strIncludes hay needle` — JS `hay.includes(needle)`. -/
def strIncludes (hay needle : String) : Bool :=
  subOccurs needle.toList hay.toList

/-! ### Fallback classifier (`fallbackAnalyzer` in `src/lib/analyzer.ts`) -/

/-- One entry of the `ERROR_PATTERNS` object literal. -/
structure ErrorPattern where
  keywords : List String
  severity : Severity
  category : String
  recommendations : List String
deriving Repr, DecidableEq

/-- `ERROR_PATTERNS.database`. -/
def databasePattern : ErrorPattern :=
  { keywords := ["connection", "timeout", "pool", "database", "query", "transaction", "constraint"]
    severity := Severity.high
    category := "Database"
    recommendations :=
      ["Check database connection string and credentials",
       "Verify database server is running and accessible",
       "Review query performance and optimize if needed",
       "Check for connection pool exhaustion"] }

/-- `ERROR_PATTERNS.network`. -/
def networkPattern : ErrorPattern :=
  { keywords := ["fetch", "http", "socket", "econnrefused", "timeout", "enotfound", "cors"]
    severity := Severity.high
    category := "Network"
    recommendations :=
      ["Verify network connectivity and DNS resolution",
       "Check endpoint URL and port are correct",
       "Review CORS policies if applicable",
       "Increase timeout duration if requests take longer"] }

/-- `ERROR_PATTERNS.runtime`. -/
def runtimePattern : ErrorPattern :=
  { keywords := ["undefined", "null", "typeerror", "cannot read", "not a function", "reference"]
    severity := Severity.high
    category := "Runtime"
    recommendations :=
      ["Add null/undefined checks before property access",
       "Use optional chaining (?.) and nullish coalescing (??)",
       "Enable strict mode and TypeScript strict checks",
       "Add type guards and runtime validation"] }

/-- `Object.values(ERROR_PATTERNS)` in declaration order. -/
def patternList : List ErrorPattern :=
  [databasePattern, networkPattern, runtimePattern]

/-- `pattern.keywords.filter(kw => fullText.includes(kw)).length`. -/
def matchCount (p : ErrorPattern) (text : String) : Nat :=
  (p.keywords.filter (fun kw => strIncludes text kw)).length

/-- One iteration of the best-match loop: replace the accumulator exactly
when the pattern's match count strictly exceeds the running maximum. -/
def selectStep (text : String) (acc : ErrorPattern × Nat) (p : ErrorPattern) :
    ErrorPattern × Nat :=
  if matchCount p text > acc.2 then (p, matchCount p text) else acc

/-- The best-match loop of `fallbackAnalyzer`: starts from
`(runtimePattern, 0)` and folds `selectStep` over the declared patterns. -/
def selectPattern (text : String) : ErrorPattern :=
  (patternList.foldl (selectStep text) (runtimePattern, 0)).1

/-- JS `toLowerCase()`, character by character. -/
def toLowerStr (s : String) : String := String.mk (s.data.map Char.toLower)

/-- The lowercased blob `` `${errorMessage} ${errorType} ${stackTrace} ${context}`.toLowerCase() ``. -/
def fullText (errorMessage errorType stackTrace context : String) : String :=
  toLowerStr (errorMessage ++ " " ++ errorType ++ " " ++ stackTrace ++ " " ++ context)

/-- `fallbackAnalyzer` from `src/lib/analyzer.ts`. -/
def fallbackAnalyzer (errorMessage errorType stackTrace context : String) :
    AnalysisResult :=
  let best := selectPattern (fullText errorMessage errorType stackTrace context)
  { severity := best.severity
    category := best.category
    rootCause := errorType ++ ": " ++ errorMessage
    recommendations := best.recommendations
    relatedErrors := []
    confidenceScore := some (0.5 : ℚ)
    analysisMetadata := none }

/-! ### Analysis gateway (`analyzeError` in `src/lib/analyzer.ts`) -/

/-- The failure taxonomy of the outbound call: network unreachable,
timeout exceeded, non-2xx status, malformed response body.  Every branch
is caught by the `try/catch` of `analyzeError`. -/
inductive ApiFailure where
  | networkError
  | timeoutExceeded
  | badStatus (code : Nat)
  | malformedBody
deriving Repr, DecidableEq

/-- A successful snake_case response body of the external analysis API. -/
structure ExternalResponse where
  severity : Severity
  category : String
  root_cause : String
  recommendations : List String
  related_errors : List String
  confidence_score : Option ℚ
  analysis_metadata : Option AnalysisMetadata
deriving Repr, DecidableEq

/-- `analyzeError` from `src/lib/analyzer.ts`; `outcome` is the result of
the outbound `fetch`.  On success the snake_case fields are renamed; on
any failure the fallback analyzer's result is returned. -/
def analyzeError (errorMessage errorType stackTrace context : String)
    (outcome : Except ApiFailure ExternalResponse) : AnalysisResult :=
  match outcome with
  | Except.ok d =>
      { severity := d.severity
        category := d.category
        rootCause := d.root_cause
        recommendations := d.recommendations
        relatedErrors := d.related_errors
        confidenceScore := d.confidence_score
        analysisMetadata := d.analysis_metadata }
  | Except.error _ => fallbackAnalyzer errorMessage errorType stackTrace context

/-! ### Record store (`src/lib/db.ts`) -/

/-- The digit character for `d < 10`. -/
def natDigitChar (d : Nat) : Char := Char.ofNat (48 + d)

/-- Fuelled worker for the decimal rendering (`fuel` strictly exceeds the
value, so the base case is never reached on the value's own digits). -/
def natToDigitsGo : Nat → Nat → List Char
  | 0, _ => []
  | fuel + 1, n =>
    if n < 10 then [natDigitChar n]
    else natToDigitsGo fuel (n / 10) ++ [natDigitChar (n % 10)]

/-- Decimal digit run of a natural number, most significant first — model of
JS `Number.prototype.toString()` on the integer clock value. -/
def natToDigits (n : Nat) : List Char := natToDigitsGo (n + 1) n

/-- `Date.now().toString()` for a clock value `n`. -/
def natToString (n : Nat) : String := String.mk (natToDigits n)

/-- The state of the backing JSON file `public/errors.json`. -/
inductive FileState where
  | missing
  | unparsable
  | parsed (records : List ErrorRecord)
deriving Repr, DecidableEq

/-- `ensureDbFile` — writes `[]` to the file when it is absent. -/
def ensureDbFile (f : FileState) : FileState :=
  match f with
  | FileState.missing => FileState.parsed []
  | g => g

/-- `getAllErrors` — reads and parses the file; any read or parse failure
is swallowed into the empty collection. -/
def getAllErrors (f : FileState) : List ErrorRecord :=
  match ensureDbFile f with
  | FileState.parsed records => records
  | _ => []

/-- `Omit<ErrorRecord, 'id' | 'timestamp'>` — the argument of `saveError`. -/
structure NewErrorFields where
  errorMessage : String
  errorType : String
  stackTrace : String
  context : String
  analysis : Option AnalysisResult
deriving Repr, DecidableEq

/-- `saveError`; `tId` and `tTs` are the clock values of the two
`Date.now()` reads (the `id` read happens first).  Returns the new record
and the persisted collection. -/
def saveError (fields : NewErrorFields) (tId tTs : Nat)
    (errors : List ErrorRecord) : ErrorRecord × List ErrorRecord :=
  let newError : ErrorRecord :=
    { id := natToString tId
      timestamp := tTs
      errorMessage := fields.errorMessage
      errorType := fields.errorType
      stackTrace := fields.stackTrace
      context := fields.context
      analysis := fields.analysis }
  (newError, errors ++ [newError])

/-- `Partial<ErrorRecord>` — the `updates` argument of `updateError`. -/
structure PartialErrorRecord where
  id : Option String
  timestamp : Option Nat
  errorMessage : Option String
  errorType : Option String
  stackTrace : Option String
  context : Option String
  analysis : Option (Option AnalysisResult)
deriving Repr, DecidableEq

/-- The `Partial<ErrorRecord>` with every field absent. -/
def emptyUpdate : PartialErrorRecord :=
  { id := none, timestamp := none, errorMessage := none, errorType := none
    stackTrace := none, context := none, analysis := none }

/-- The spread `{ ...errors[index], ...updates }`: a present field of
`updates` overrides the stored one. -/
def mergeRecord (e : ErrorRecord) (u : PartialErrorRecord) : ErrorRecord :=
  { id := u.id.getD e.id
    timestamp := u.timestamp.getD e.timestamp
    errorMessage := u.errorMessage.getD e.errorMessage
    errorType := u.errorType.getD e.errorType
    stackTrace := u.stackTrace.getD e.stackTrace
    context := u.context.getD e.context
    analysis := u.analysis.getD e.analysis }

/-- `updateError` — finds the record by id, shallow-merges `updates` over
it, persists, and returns the merged record; `none` when the id is not
found. -/
def updateError (id : String) (updates : PartialErrorRecord)
    (errors : List ErrorRecord) : Option ErrorRecord × List ErrorRecord :=
  match errors.findIdx? (fun e => e.id == id) with
  | none => (none, errors)
  | some i =>
    match errors.get? i with
    | none => (none, errors)
    | some e => (some (mergeRecord e updates), errors.set i (mergeRecord e updates))

/-- `deleteError` — filters the record out; reports whether the length
shrank, and leaves the file untouched when it did not. -/
def deleteError (id : String) (errors : List ErrorRecord) :
    Bool × List ErrorRecord :=
  let filtered := errors.filter (fun e => e.id != id)
  if filtered.length = errors.length then (false, errors) else (true, filtered)

/-- The JS sort comparator `(a, b) => b.timestamp - a.timestamp` puts `a`
before `b` exactly when `b.timestamp ≤ a.timestamp`. -/
def byTimestampDesc (a b : ErrorRecord) : Bool := b.timestamp ≤ a.timestamp

/-- `errors.sort((a, b) => b.timestamp - a.timestamp)` — ES2019 sorts are
stable, so a stable merge sort models any compliant engine. -/
def sortByTimestampDesc (errors : List ErrorRecord) : List ErrorRecord :=
  errors.mergeSort byTimestampDesc

/-- The effective end index of `arr.slice(0, endIdx)` for an array of
length `len`: `ToIntegerOrInfinity` sends `NaN` (`none`) to `0`, clamps a
non-negative index to `len`, and counts a negative index from the end. -/
def jsSliceEnd (len : Nat) (endIdx : Option Int) : Nat :=
  match endIdx with
  | none => 0
  | some i => if 0 ≤ i then min i.toNat len else len - min (-i).toNat len

/-- `getRecentErrors(limit)`; the JS number `limit` may be `NaN`, hence
`Option Int` with `none` = `NaN`. -/
def getRecentErrors (limit : Option Int) (errors : List ErrorRecord) :
    List ErrorRecord :=
  (sortByTimestampDesc errors).take (jsSliceEnd errors.length limit)

/-- `getRecentErrors()` — the default parameter is `limit = 10`. -/
def getRecentErrorsDefault (errors : List ErrorRecord) : List ErrorRecord :=
  getRecentErrors (some 10) errors

/-! ### Route handlers (`src/app/api/errors/route.ts`) -/

/-- One JS whitespace character skipped by `parseInt`. -/
def isJsWhitespace (c : Char) : Bool :=
  c == ' ' || c == '\t' || c == '\n' || c == '\r'

/-- Decimal digit value of a character, `none` for a non-digit. -/
def decDigitVal (c : Char) : Option Nat :=
  if c.isDigit then some (c.toNat - 48) else none

/-- Hexadecimal digit value of a character, `none` for a non-digit. -/
def hexDigitVal (c : Char) : Option Nat :=
  if c.isDigit then some (c.toNat - 48)
  else if 'a' ≤ c && c ≤ 'f' then some (c.toNat - 87)
  else if 'A' ≤ c && c ≤ 'F' then some (c.toNat - 55)
  else none

/-- The longest leading run of digits under the digit reader `dv`. -/
def leadingDigits (dv : Char → Option Nat) : List Char → List Nat
  | [] => []
  | c :: cs =>
    match dv c with
    | none => []
    | some d => d :: leadingDigits dv cs

/-- Value of a digit run in the given base, most significant digit first. -/
def digitsToNat (base : Nat) (ds : List Nat) : Nat :=
  ds.foldl (fun a d => a * base + d) 0

/-- JS `parseInt(s)` with no radix argument: skip leading whitespace,
accept one optional sign, honour a leading `0x`/`0X` as hexadecimal, read
the longest run of digits, and yield `NaN` (`none`) when no digit was
read. -/
def jsParseInt (s : String) : Option Int :=
  let cs := s.toList.dropWhile isJsWhitespace
  let signAndRest : Int × List Char :=
    match cs with
    | '-' :: rest => (-1, rest)
    | '+' :: rest => (1, rest)
    | _ => (1, cs)
  let body := signAndRest.2
  let digitsAndBase : List Nat × Nat :=
    match body with
    | '0' :: x :: rest =>
      if x == 'x' || x == 'X' then (leadingDigits hexDigitVal rest, 16)
      else (leadingDigits decDigitVal body, 10)
    | _ => (leadingDigits decDigitVal body, 10)
  match digitsAndBase.1 with
  | [] => none
  | ds => some (signAndRest.1 * (digitsToNat digitsAndBase.2 ds : Nat))

/-- JS truthiness of the `string | null` returned by
`searchParams.get("limit")`: `null` and the empty string are falsy. -/
def truthyParam (v : Option String) : Bool :=
  match v with
  | none => false
  | some s => s != ""

/-- The `GET` handler: with a truthy `limit` query parameter it returns
`getRecentErrors(parseInt(limit))`, otherwise the whole collection. -/
def GET (limitParam : Option String) (file : FileState) : List ErrorRecord :=
  if truthyParam limitParam then
    getRecentErrors (jsParseInt (limitParam.getD "")) (getAllErrors file)
  else
    getAllErrors file

/-- JS falsiness of a `string | undefined` body field: absent or empty. -/
def missingField (v : Option String) : Bool :=
  match v with
  | none => true
  | some s => s == ""

/-- Parsed JSON body of a `POST /api/errors` request. -/
structure PostBody where
  errorMessage : Option String
  errorType : Option String
  stackTrace : Option String
  context : Option String
deriving Repr, DecidableEq

/-- Outcome of the `POST` handler: HTTP status, response record (present
on 201), resulting file state, and whether the analysis gateway ran. -/
structure PostOutcome where
  status : Nat
  record : Option ErrorRecord
  file : FileState
  analysisCalled : Bool
deriving Repr, DecidableEq

/-- The `POST` handler; `outcome` is the result of the outbound analysis
call and `tId`/`tTs` are the clock reads inside `saveError`. -/
def POST (body : PostBody) (outcome : Except ApiFailure ExternalResponse)
    (tId tTs : Nat) (file : FileState) : PostOutcome :=
  if missingField body.errorMessage || missingField body.errorType then
    { status := 400, record := none, file := file, analysisCalled := false }
  else
    let msg := body.errorMessage.getD ""
    let ty := body.errorType.getD ""
    let stack := body.stackTrace.getD ""
    let ctx := body.context.getD ""
    let analysis := analyzeError msg ty stack ctx outcome
    let saved := saveError ⟨msg, ty, stack, ctx, some analysis⟩ tId tTs (getAllErrors file)
    { status := 201, record := some saved.1, file := FileState.parsed saved.2
      analysisCalled := true }

/-! ### Auxiliary definitions for the proofs -/

/-- Value of a decimal digit run (inverse of `natToDigits`). -/
def digitsVal10 (cs : List Char) : Nat :=
  cs.foldl (fun a c => a * 10 + (c.toNat - 48)) 0

/-- A concrete stored record used by witnesses. -/
def sampleRecord : ErrorRecord :=
  { id := "1", timestamp := 5, errorMessage := "m", errorType := "T"
    stackTrace := "", context := "", analysis := none }

/-- A second concrete stored record used by witnesses. -/
def sampleRecord2 : ErrorRecord :=
  { id := "2", timestamp := 3, errorMessage := "n", errorType := "U"
    stackTrace := "", context := "", analysis := none }

/-! ### Helper lemmas -/

/-- The best-match loop picks: the earliest-declared pattern achieving the
maximal keyword count when some count is positive, and the initial
accumulator `runtimePattern` when all counts are zero. -/
theorem selectPattern_cases (t : String) :
    (matchCount databasePattern t = 0 ∧ matchCount networkPattern t = 0 ∧
       matchCount runtimePattern t = 0 ∧ selectPattern t = runtimePattern) ∨
    (selectPattern t = databasePattern ∧ 0 < matchCount databasePattern t ∧
       matchCount networkPattern t ≤ matchCount databasePattern t ∧
       matchCount runtimePattern t ≤ matchCount databasePattern t) ∨
    (selectPattern t = networkPattern ∧ 0 < matchCount networkPattern t ∧
       matchCount databasePattern t < matchCount networkPattern t ∧
       matchCount runtimePattern t ≤ matchCount networkPattern t) ∨
    (selectPattern t = runtimePattern ∧ 0 < matchCount runtimePattern t ∧
       matchCount databasePattern t < matchCount runtimePattern t ∧
       matchCount networkPattern t < matchCount runtimePattern t) := by
  simp only [selectPattern, patternList, List.foldl, selectStep]
  split_ifs <;> simp_all <;> omega

/-- Every declared pattern (and the default) carries severity `high`. -/
theorem selectPattern_severity (t : String) :
    (selectPattern t).severity = Severity.high := by
  simp only [selectPattern, patternList, List.foldl, selectStep]
  split_ifs <;> rfl

/-- The comparator relation is transitive. -/
theorem byTimestampDesc_trans : ∀ a b c : ErrorRecord,
    byTimestampDesc a b → byTimestampDesc b c → byTimestampDesc a c := by
  intro a b c hab hbc
  simp only [byTimestampDesc, decide_eq_true_eq] at *
  omega

/-- The comparator relation is total. -/
theorem byTimestampDesc_total : ∀ a b : ErrorRecord,
    byTimestampDesc a b || byTimestampDesc b a := by
  intro a b
  simp only [byTimestampDesc, Bool.or_eq_true, decide_eq_true_eq]
  omega

/-- Splitting a collection's length by the delete predicate. -/
theorem filter_ne_length_add_countP (id : String) (l : List ErrorRecord) :
    (l.filter (fun e => e.id != id)).length + l.countP (fun e => e.id == id)
      = l.length := by
  induction l with
  | nil => rfl
  | cons e l ih =>
    by_cases h : e.id = id
    · simp [List.filter_cons, List.countP_cons, h]
      omega
    · simp [List.filter_cons, List.countP_cons, h]
      omega

/-- Digit characters decode back to their value. -/
theorem natDigitChar_toNat (d : Nat) (h : d < 10) :
    (natDigitChar d).toNat = 48 + d := by
  interval_cases d <;> decide

/-- The decimal rendering is inverted by `digitsVal10`. -/
theorem digitsVal10_natToDigitsGo :
    ∀ fuel n, n < fuel → digitsVal10 (natToDigitsGo fuel n) = n := by
  intro fuel
  induction fuel with
  | zero => intro n h; omega
  | succ fuel ih =>
    intro n h
    rw [natToDigitsGo]
    by_cases h10 : n < 10
    · rw [if_pos h10]
      simp [digitsVal10, natDigitChar_toNat n h10]
    · rw [if_neg h10]
      have hdiv : n / 10 < fuel := by omega
      have hmod : n % 10 < 10 := Nat.mod_lt _ (by omega)
      have hv := ih (n / 10) hdiv
      simp only [digitsVal10, List.foldl_append, List.foldl] at hv ⊢
      rw [natDigitChar_toNat _ hmod]
      omega

/-- Distinct clock values render to distinct id strings. -/
theorem natToString_inj {m n : Nat} (h : natToString m = natToString n) :
    m = n := by
  have hm : digitsVal10 (natToDigits m) = m :=
    digitsVal10_natToDigitsGo (m + 1) m (Nat.lt_succ_self m)
  have hn : digitsVal10 (natToDigits n) = n :=
    digitsVal10_natToDigitsGo (n + 1) n (Nat.lt_succ_self n)
  have hd : natToDigits m = natToDigits n := congrArg String.data h
  rw [← hm, ← hn, hd]

/-! ### Claim theorems -/

/-- Claim C1 (amended): two `saveError` calls whose id clock reads differ
return records with distinct `id`s; the returned record's `timestamp` is
the second clock read, hence lies within the call's time window whenever
the monotone clock reads lie within it; and a create preserves
collection-wide id uniqueness provided no stored record already carries
the time-derived id.  (As literally stated the claim fails: two calls in
the same millisecond share an id — see the counterexample.) -/
theorem saveError_spec :
    ∀ (fields fieldsB : NewErrorFields) (tId tTs tIdB tTsB : Nat)
      (errors errorsB : List ErrorRecord) (tStart tEnd : Nat),
      (tId ≠ tIdB →
        (saveError fields tId tTs errors).1.id
          ≠ (saveError fieldsB tIdB tTsB errorsB).1.id) ∧
      (tStart ≤ tId → tId ≤ tTs → tTs ≤ tEnd →
        tStart ≤ (saveError fields tId tTs errors).1.timestamp ∧
        (saveError fields tId tTs errors).1.timestamp ≤ tEnd) ∧
      ((errors.map ErrorRecord.id).Nodup →
        natToString tId ∉ errors.map ErrorRecord.id →
        ((saveError fields tId tTs errors).2.map ErrorRecord.id).Nodup) := by
  intro fields fieldsB tId tTs tIdB tTsB errors errorsB tStart tEnd
  refine ⟨fun hne heq => hne (natToString_inj heq), fun h1 h2 h3 => ?_, ?_⟩
  · have ht : (saveError fields tId tTs errors).1.timestamp = tTs := rfl
    constructor <;> omega
  · intro hnd hnotin
    show ((errors ++ [_]).map ErrorRecord.id).Nodup
    simp only [List.map_append, List.map_cons, List.map_nil]
    simp [List.nodup_append, hnd, hnotin]

/-- Witness for C1 at concrete clock reads 3/4 versus 5/6. -/
theorem saveError_spec_witness :
    ((saveError ⟨"a", "T", "", "", none⟩ 3 4 []).1.id
       ≠ (saveError ⟨"b", "U", "", "", none⟩ 5 6 []).1.id) ∧
    (3 ≤ (saveError ⟨"a", "T", "", "", none⟩ 3 4 []).1.timestamp ∧
      (saveError ⟨"a", "T", "", "", none⟩ 3 4 []).1.timestamp ≤ 4) ∧
    ((saveError ⟨"a", "T", "", "", none⟩ 3 4 []).2.map ErrorRecord.id).Nodup := by
  obtain ⟨h1, h2, h3⟩ :=
    saveError_spec ⟨"a", "T", "", "", none⟩ ⟨"b", "U", "", "", none⟩ 3 4 5 6 [] [] 3 4
  exact ⟨h1 (by decide), h2 (by decide) (by decide) (by decide),
    h3 (by decide) (by decide)⟩

/-- Counterexample for C1 as literally stated: two creates whose
`Date.now()` reads fall in the same millisecond (clock value 5) return
records with equal `id`s, and the second create leaves the collection
with a duplicated id. -/
theorem saveError_clock_collision :
    (saveError ⟨"boom", "Error", "", "", none⟩ 5 5 []).1.id
      = (saveError ⟨"later", "Error", "", "", none⟩ 5 6
          (saveError ⟨"boom", "Error", "", "", none⟩ 5 5 []).2).1.id ∧
    ¬ ((saveError ⟨"later", "Error", "", "", none⟩ 5 6
          (saveError ⟨"boom", "Error", "", "", none⟩ 5 5 []).2).2.map
            ErrorRecord.id).Nodup := by
  decide

/-- Claim C2 (amended): `updateError` leaves every record's `id` and
`timestamp` unchanged provided the partial update carries no `id` and no
`timestamp` field, and any returned record keeps the id and timestamp of
a stored record.  (As literally stated the claim fails: the shallow merge
`{...errors[index], ...updates}` lets an update overwrite `id` and
`timestamp` — see the counterexample.) -/
theorem updateError_preserves_id_timestamp :
    ∀ (id : String) (u : PartialErrorRecord) (errors : List ErrorRecord),
      u.id = none → u.timestamp = none →
      (updateError id u errors).2.map (fun e => (e.id, e.timestamp))
        = errors.map (fun e => (e.id, e.timestamp)) ∧
      ∀ r, (updateError id u errors).1 = some r →
        ∃ e ∈ errors, r.id = e.id ∧ r.timestamp = e.timestamp := by
  intro id u errors hid hts
  cases hf : errors.findIdx? (fun e => e.id == id) with
  | none =>
    constructor
    · simp [updateError, hf]
    · intro r hr
      simp [updateError, hf] at hr
  | some i =>
    cases hg : errors[i]? with
    | none =>
      constructor
      · simp [updateError, hf, hg]
      · intro r hr
        simp [updateError, hf, hg] at hr
    | some e =>
      have hmerge : (mergeRecord e u).id = e.id
          ∧ (mergeRecord e u).timestamp = e.timestamp := by
        simp [mergeRecord, hid, hts]
      have hlt : i < errors.length := by
        by_contra hcon
        rw [List.getElem?_eq_none (by omega)] at hg
        exact Option.noConfusion hg
      constructor
      · simp only [updateError, hf, List.get?_eq_getElem?, hg]
        apply List.ext_getElem?
        intro j
        rw [List.map_set, List.getElem?_set]
        by_cases hij : i = j
        · subst hij
          rw [if_pos rfl, if_pos (by simpa using hlt)]
          rw [List.getElem?_map, hg]
          simp [hmerge.1, hmerge.2]
        · rw [if_neg hij]
      · intro r hr
        simp only [updateError, hf, List.get?_eq_getElem?, hg,
          Option.some.injEq] at hr
        exact ⟨e, List.getElem?_mem hg, by rw [← hr, hmerge.1],
          by rw [← hr, hmerge.2]⟩

/-- Witness for C2 on a one-record collection and the empty update. -/
theorem updateError_preserves_id_timestamp_witness :
    (updateError "1" emptyUpdate [sampleRecord]).2.map (fun e => (e.id, e.timestamp))
        = [sampleRecord].map (fun e => (e.id, e.timestamp)) ∧
    ∀ r, (updateError "1" emptyUpdate [sampleRecord]).1 = some r →
        ∃ e ∈ [sampleRecord], r.id = e.id ∧ r.timestamp = e.timestamp :=
  updateError_preserves_id_timestamp "1" emptyUpdate [sampleRecord] rfl rfl

/-- Counterexample for C2 as literally stated: an update whose partial
fields contain `id := "2"` and `timestamp := 99` rewrites both supposedly
immutable fields of the stored record `"1"`. -/
theorem updateError_mutates_id_timestamp_counterexample :
    (updateError "1"
        { id := some "2", timestamp := some 99, errorMessage := none,
          errorType := none, stackTrace := none, context := none, analysis := none }
        [{ id := "1", timestamp := 0, errorMessage := "m", errorType := "T",
           stackTrace := "", context := "", analysis := none }]).2.map
      (fun e => (e.id, e.timestamp)) = [("2", 99)] := by
  decide

/-- Claim C3: the fallback classifier scores each declared pattern by the
number of its keywords occurring in the lowercased concatenation of the
four fields, picks the highest count with ties to the earliest-declared
pattern, and falls back to the default (runtime) pattern when every count
is zero; in particular an input containing "timeout" and "database" is
classified "Database" because the database pattern out-scores the network
pattern there. -/
theorem fallback_best_keyword_match :
    (∀ msg ty st ctx,
      (matchCount databasePattern (fullText msg ty st ctx) = 0 ∧
         matchCount networkPattern (fullText msg ty st ctx) = 0 ∧
         matchCount runtimePattern (fullText msg ty st ctx) = 0 ∧
         (fallbackAnalyzer msg ty st ctx).category = "Runtime") ∨
      ((fallbackAnalyzer msg ty st ctx).category = "Database" ∧
         0 < matchCount databasePattern (fullText msg ty st ctx) ∧
         matchCount networkPattern (fullText msg ty st ctx) ≤
           matchCount databasePattern (fullText msg ty st ctx) ∧
         matchCount runtimePattern (fullText msg ty st ctx) ≤
           matchCount databasePattern (fullText msg ty st ctx)) ∨
      ((fallbackAnalyzer msg ty st ctx).category = "Network" ∧
         0 < matchCount networkPattern (fullText msg ty st ctx) ∧
         matchCount databasePattern (fullText msg ty st ctx) <
           matchCount networkPattern (fullText msg ty st ctx) ∧
         matchCount runtimePattern (fullText msg ty st ctx) ≤
           matchCount networkPattern (fullText msg ty st ctx)) ∨
      ((fallbackAnalyzer msg ty st ctx).category = "Runtime" ∧
         0 < matchCount runtimePattern (fullText msg ty st ctx) ∧
         matchCount databasePattern (fullText msg ty st ctx) <
           matchCount runtimePattern (fullText msg ty st ctx) ∧
         matchCount networkPattern (fullText msg ty st ctx) <
           matchCount runtimePattern (fullText msg ty st ctx))) ∧
    (fallbackAnalyzer "Request timeout while connecting to database" "Error" "" "").category
      = "Database" ∧
    matchCount networkPattern
        (fullText "Request timeout while connecting to database" "Error" "" "") <
      matchCount databasePattern
        (fullText "Request timeout while connecting to database" "Error" "" "") := by
  refine ⟨fun msg ty st ctx => ?_, by decide, by decide⟩
  have h := selectPattern_cases (fullText msg ty st ctx)
  have hcat : (fallbackAnalyzer msg ty st ctx).category
      = (selectPattern (fullText msg ty st ctx)).category := rfl
  rcases h with ⟨h1, h2, h3, h4⟩ | ⟨h1, h2⟩ | ⟨h1, h2⟩ | ⟨h1, h2⟩
  · exact Or.inl ⟨h1, h2, h3, by rw [hcat, h4]; rfl⟩
  · exact Or.inr (Or.inl ⟨by rw [hcat, h1]; rfl, h2⟩)
  · exact Or.inr (Or.inr (Or.inl ⟨by rw [hcat, h1]; rfl, h2⟩))
  · exact Or.inr (Or.inr (Or.inr ⟨by rw [hcat, h1]; rfl, h2⟩))

/-- Claim C4: `analyzeError` is total over every failure of the external
call (network error, timeout, non-2xx status, malformed body) and returns
exactly the fallback classifier's result there, whose `confidenceScore`
is the constant `0.5` and whose `rootCause` is `"<errorType>: <errorMessage>"`. -/
theorem analyzeError_never_raises :
    ∀ msg ty st ctx failure,
      analyzeError msg ty st ctx (Except.error failure) = fallbackAnalyzer msg ty st ctx ∧
      (analyzeError msg ty st ctx (Except.error failure)).confidenceScore = some (0.5 : ℚ) ∧
      (analyzeError msg ty st ctx (Except.error failure)).rootCause = ty ++ ": " ++ msg :=
  fun _ _ _ _ _ => ⟨rfl, rfl, rfl⟩

/-- Claim C5: the create endpoint rejects a body whose `errorMessage` or
`errorType` is absent or empty with a 400, leaving the store untouched
and never invoking the analysis gateway; with both fields non-empty it
responds 201 with the record it appended to the store. -/
theorem POST_validates_then_persists :
    ∀ (body : PostBody) (outcome : Except ApiFailure ExternalResponse)
      (tId tTs : Nat) (file : FileState),
      ((body.errorMessage = none ∨ body.errorMessage = some "" ∨
          body.errorType = none ∨ body.errorType = some "") →
        POST body outcome tId tTs file
          = { status := 400, record := none, file := file, analysisCalled := false }) ∧
      (∀ msg ty, body.errorMessage = some msg → body.errorType = some ty →
        msg ≠ "" → ty ≠ "" →
        (POST body outcome tId tTs file).status = 201 ∧
        (POST body outcome tId tTs file).analysisCalled = true ∧
        ∃ r, (POST body outcome tId tTs file).record = some r ∧
          (POST body outcome tId tTs file).file
            = FileState.parsed (getAllErrors file ++ [r])) := by
  intro body outcome tId tTs file
  constructor
  · intro h
    rcases h with h | h | h | h <;> simp [POST, missingField, h]
  · intro msg ty hmsg hty hmne htne
    have hcond : (missingField body.errorMessage || missingField body.errorType) = false := by
      simp [missingField, hmsg, hty, hmne, htne]
    refine ⟨?_, ?_, ?_⟩
    · simp [POST, hcond]
    · simp [POST, hcond]
    · refine ⟨(saveError ⟨body.errorMessage.getD "", body.errorType.getD "",
        body.stackTrace.getD "", body.context.getD "",
        some (analyzeError (body.errorMessage.getD "") (body.errorType.getD "")
          (body.stackTrace.getD "") (body.context.getD "") outcome)⟩ tId tTs
        (getAllErrors file)).1, ?_, ?_⟩
      · simp [POST, hcond]
      · simp [POST, hcond, saveError]

/-- Witness for C5: a body missing `errorMessage` yields the 400 outcome,
and a complete body yields the 201 outcome with the appended record. -/
theorem POST_validates_then_persists_witness :
    POST ⟨none, some "T", none, none⟩ (Except.error ApiFailure.timeoutExceeded) 1 2
        (FileState.parsed [])
      = { status := 400, record := none, file := FileState.parsed []
          analysisCalled := false } ∧
    ((POST ⟨some "m", some "T", none, none⟩ (Except.error ApiFailure.timeoutExceeded) 1 2
        (FileState.parsed [])).status = 201 ∧
      (POST ⟨some "m", some "T", none, none⟩ (Except.error ApiFailure.timeoutExceeded) 1 2
        (FileState.parsed [])).analysisCalled = true ∧
      ∃ r, (POST ⟨some "m", some "T", none, none⟩ (Except.error ApiFailure.timeoutExceeded) 1 2
          (FileState.parsed [])).record = some r ∧
        (POST ⟨some "m", some "T", none, none⟩ (Except.error ApiFailure.timeoutExceeded) 1 2
          (FileState.parsed [])).file
          = FileState.parsed (getAllErrors (FileState.parsed []) ++ [r])) :=
  ⟨(POST_validates_then_persists ⟨none, some "T", none, none⟩
      (Except.error ApiFailure.timeoutExceeded) 1 2 (FileState.parsed [])).1 (Or.inl rfl),
   (POST_validates_then_persists ⟨some "m", some "T", none, none⟩
      (Except.error ApiFailure.timeoutExceeded) 1 2 (FileState.parsed [])).2
     "m" "T" rfl rfl (by decide) (by decide)⟩

/-- Claim C6: `getRecentErrors n` returns exactly `min n collectionSize`
records ordered by `timestamp` descending, and the omitted-argument form
uses the default limit 10. -/
theorem getRecent_length_sorted_default :
    ∀ (n : Nat) (errors : List ErrorRecord),
      (getRecentErrors (some (n : Int)) errors).length = min n errors.length ∧
      (getRecentErrors (some (n : Int)) errors).Pairwise
        (fun a b => b.timestamp ≤ a.timestamp) ∧
      getRecentErrorsDefault errors = getRecentErrors (some 10) errors := by
  intro n errors
  refine ⟨?_, ?_, rfl⟩
  · simp only [getRecentErrors, jsSliceEnd, List.length_take, sortByTimestampDesc,
      List.length_mergeSort]
    norm_num
  · have hs : (errors.mergeSort byTimestampDesc).Pairwise
        (fun a b => byTimestampDesc a b = true) :=
      List.sorted_mergeSort byTimestampDesc_trans byTimestampDesc_total errors
    have ht : (getRecentErrors (some (n : Int)) errors).Pairwise
        (fun a b => byTimestampDesc a b = true) :=
      List.Pairwise.sublist (List.take_sublist _ _) hs
    exact ht.imp (fun h => by simpa [byTimestampDesc] using h)

/-- Claim C7: deleting an absent id returns `false` and leaves the
collection untouched; under the id-uniqueness invariant deleting a
present id returns `true`, removes exactly one record, and a second
delete of the same id returns `false`. -/
theorem deleteError_spec :
    ∀ (id : String) (errors : List ErrorRecord),
      ((∀ e ∈ errors, e.id ≠ id) → deleteError id errors = (false, errors)) ∧
      (id ∈ errors.map ErrorRecord.id → (errors.map ErrorRecord.id).Nodup →
        (deleteError id errors).1 = true ∧
        (deleteError id errors).2.length + 1 = errors.length ∧
        (deleteError id (deleteError id errors).2).1 = false) := by
  intro id errors
  constructor
  · intro h
    have hfil : errors.filter (fun e => e.id != id) = errors :=
      List.filter_eq_self.mpr (fun e he => by simpa using h e he)
    simp [deleteError, hfil]
  · intro hmem hnodup
    have hcount : (errors.map ErrorRecord.id).count id = 1 :=
      List.count_eq_one_of_mem hnodup hmem
    have hcount' : errors.countP (fun e => e.id == id) = 1 := by
      simpa [List.count_eq_countP, List.countP_map, Function.comp] using hcount
    have hlen := filter_ne_length_add_countP id errors
    have hne : (errors.filter (fun e => e.id != id)).length ≠ errors.length := by
      omega
    have hdel : deleteError id errors
        = (true, errors.filter (fun e => e.id != id)) := by
      simp only [deleteError]
      rw [if_neg hne]
    refine ⟨by rw [hdel], ?_, ?_⟩
    · rw [hdel]
      show (errors.filter (fun e => e.id != id)).length + 1 = errors.length
      omega
    · rw [hdel]
      have hall : ∀ e ∈ errors.filter (fun e => e.id != id), e.id ≠ id := by
        intro e he
        have := (List.mem_filter.mp he).2
        simpa using this
      have hfil2 : (errors.filter (fun e => e.id != id)).filter (fun e => e.id != id)
          = errors.filter (fun e => e.id != id) :=
        List.filter_eq_self.mpr (fun e he => by simpa using hall e he)
      simp [deleteError, hfil2]

/-- Witness for C7 on concrete one- and two-record collections. -/
theorem deleteError_spec_witness :
    deleteError "9" [sampleRecord] = (false, [sampleRecord]) ∧
    ((deleteError "1" [sampleRecord, sampleRecord2]).1 = true ∧
      (deleteError "1" [sampleRecord, sampleRecord2]).2.length + 1
        = [sampleRecord, sampleRecord2].length ∧
      (deleteError "1" (deleteError "1" [sampleRecord, sampleRecord2]).2).1 = false) :=
  ⟨(deleteError_spec "9" [sampleRecord]).1 (by decide),
   (deleteError_spec "1" [sampleRecord, sampleRecord2]).2 (by decide) (by decide)⟩

/-- Claim C8: `getAllErrors` never raises — a missing or unparsable
backing file yields the empty collection, and a parsable file yields the
full stored collection. -/
theorem getAllErrors_swallows_failures :
    getAllErrors FileState.missing = [] ∧
    getAllErrors FileState.unparsable = [] ∧
    ∀ records, getAllErrors (FileState.parsed records) = records :=
  ⟨rfl, rfl, fun _ => rfl⟩

/-- Claim C9: every fallback result has severity exactly `high`, an empty
`relatedErrors` list, and no `analysisMetadata`. -/
theorem fallback_fixed_severity_related_metadata :
    ∀ msg ty st ctx,
      (fallbackAnalyzer msg ty st ctx).severity = Severity.high ∧
      (fallbackAnalyzer msg ty st ctx).relatedErrors = [] ∧
      (fallbackAnalyzer msg ty st ctx).analysisMetadata = none :=
  fun msg ty st ctx => ⟨selectPattern_severity (fullText msg ty st ctx), rfl, rfl⟩

/-- Claim C10 (amended): a `limit` query parameter that is present and
non-empty but is the string "0" or does not parse to an integer makes the
list endpoint answer the empty array.  (As literally stated the claim
fails: the empty string is present and unparsable, yet — being falsy — it
routes to the full collection; see the counterexample.) -/
theorem GET_unparsable_or_zero_limit_empty :
    ∀ (s : String) (file : FileState),
      s ≠ "" → (jsParseInt s = none ∨ s = "0") →
      GET (some s) file = [] := by
  intro s file hne h
  have htruthy : truthyParam (some s) = true := by
    simp [truthyParam, hne]
  rcases h with hnone | h0
  · simp [GET, htruthy, getRecentErrors, hnone, jsSliceEnd]
  · subst h0
    have h0v : jsParseInt "0" = some 0 := by decide
    simp [GET, htruthy, getRecentErrors, h0v, jsSliceEnd]

/-- Witness for C10 on the unparsable limit string "abc" over a non-empty
collection. -/
theorem GET_unparsable_limit_witness :
    GET (some "abc") (FileState.parsed [sampleRecord]) = [] :=
  GET_unparsable_or_zero_limit_empty "abc" (FileState.parsed [sampleRecord])
    (by decide) (Or.inl (by decide))

/-- Counterexample for C10 as literally stated: the limit value `""` is
present and does not parse to an integer (`parseInt("") = NaN`), yet the
endpoint returns the full one-record collection, not the empty array. -/
theorem GET_empty_limit_returns_full_collection :
    jsParseInt "" = none ∧
    GET (some "") (FileState.parsed
        [{ id := "1", timestamp := 0, errorMessage := "m", errorType := "T",
           stackTrace := "", context := "", analysis := none }])
      = [{ id := "1", timestamp := 0, errorMessage := "m", errorType := "T",
           stackTrace := "", context := "", analysis := none }] := by
  constructor
  · rfl
  · decide

end Debugger
